import Mathlib

/-!
Shallow embedding of the `dockertest` package (container provisioning helpers
for tests). External effects — invocations of the container engine, the SQL
driver, the TCP dialer and the random source — are modelled as explicit
oracle inputs; each embedded function returns its Go results together with a
trace of the teardown engine commands it issued, so that rollback and no-op
properties can be stated about the commands actually invoked.
-/

namespace Dockertest

/-- A teardown command sent to the container engine (`docker kill` /
`docker rm -v`), recorded in traces. -/
inductive EngineCmd
  | kill (id : String)
  | rm (id : String)
deriving DecidableEq, Repr

/-- Oracle for the engine's responses to teardown commands: `none` models a
nil Go error, `some e` an error with message `e`. -/
structure Engine where
  killRes : String → Option String
  rmRes : String → Option String

/-- Oracle for the environment consulted by `runLongTest`: which executables
resolve on the search path, whether `docker-machine start` succeeds, the
result of `docker images --no-trunc`, and the result of `docker pull`
(combined output paired with an optional error). -/
structure Env where
  haveDockerMachine : Bool
  haveDocker : Bool
  startDockerMachineOk : Bool
  imagesRes : Except String String
  pullRes : String → String × Option String

/-- Substring containment, modelling Go's `bytes.Contains`. -/
def hasSub (out name : String) : Bool := decide (name.toList <:+: out.toList)

/-- `haveImage` from docker.go: runs `docker images --no-trunc` and checks
substring containment of the image name in the raw listing. -/
def haveImage (env : Env) (name : String) : Except String Bool :=
  match env.imagesRes with
  | .error e => .error e
  | .ok out => .ok (hasSub out name)

/-- `Pull` from docker.go: invokes `docker pull`; on failure the error wraps
the combined output (`fmt.Errorf("%v: %s", err, out)`). -/
def Pull (env : Env) (image : String) : Option String :=
  match env.pullRes image with
  | (out, some e) => some (e ++ ": " ++ out)
  | (_, none) => none

/-- Outcome of `runLongTest` from docker.go. `reachedImageEnsure` records
whether control reached the image-present/pull step; `warnedStartFailure`
records that the `docker-machine` start failure was logged (a warning, not an
error). -/
structure LongTestOut where
  err : Option String
  reachedImageEnsure : Bool
  dockerMachineAvailable : Bool
  warnedStartFailure : Bool
deriving DecidableEq, Repr

/-- The image-ensure tail of `runLongTest`: check `haveImage`, pull when the
image is absent, wrapping errors as in the source. -/
def imageEnsure (env : Env) (image : String) : Option String :=
  match haveImage env image with
  | .error e => some ("Error checking for docker image " ++ image ++ ": " ++ e)
  | .ok true => none
  | .ok false =>
    match Pull env image with
    | some e => some ("Error pulling " ++ image ++ ": " ++ e)
    | none => none

/-- `runLongTest` from docker.go: prefer `docker-machine` when present (a
failed `docker-machine start` is only logged), otherwise require `docker`;
then ensure the image is present, pulling if needed. -/
def runLongTest (env : Env) (image : String) : LongTestOut :=
  if env.haveDockerMachine then
    { err := imageEnsure env image
      reachedImageEnsure := true
      dockerMachineAvailable := true
      warnedStartFailure := !env.startDockerMachineOk }
  else if !env.haveDocker then
    { err := some "Neither 'docker' nor 'docker-machine' available on this system."
      reachedImageEnsure := false
      dockerMachineAvailable := false
      warnedStartFailure := false }
  else
    { err := imageEnsure env image
      reachedImageEnsure := true
      dockerMachineAvailable := false
      warnedStartFailure := false }

/-- Go's `unicode.IsSpace` on the characters relevant to `strings.TrimSpace`
(Latin-1 range). -/
def goIsSpace (c : Char) : Bool :=
  c = ' ' ∨ c = '\t' ∨ c = '\n' ∨ c = (Char.ofNat 0x0B) ∨ c = (Char.ofNat 0x0C) ∨
  c = '\r' ∨ c = (Char.ofNat 0x85) ∨ c = (Char.ofNat 0xA0)

/-- `strings.TrimSpace`: drop leading and trailing whitespace. -/
def trimSpace (s : String) : String :=
  String.mk (((s.toList.dropWhile goIsSpace).reverse.dropWhile goIsSpace).reverse)

/-- A character accepted by the `[a-zA-Z0-9]` class. -/
def isAlnumASCII (c : Char) : Bool :=
  ('a' ≤ c ∧ c ≤ 'z') ∨ ('A' ≤ c ∧ c ≤ 'Z') ∨ ('0' ≤ c ∧ c ≤ '9')

/-- Whether `regexp.MustCompile("^([a-zA-Z0-9]+)$").MatchString s` holds:
`s` is non-empty and every character is ASCII alphanumeric. -/
def validIDMatch (s : String) : Bool :=
  !s.toList.isEmpty && s.toList.all isAlnumASCII

/-- Result of `run` from docker.go, tagging which of its return paths fired. -/
inductive RunResult
  | ok (containerID : String)
  | cmdFailed (msg : String)
  | invalidOutput (msg : String)
  | emptyOutput
deriving DecidableEq, Repr

/-- Whether a `RunResult` is the dedicated empty-output error. -/
def RunResult.isEmptyOutput : RunResult → Bool
  | .emptyOutput => true
  | _ => false

/-- `run` from docker.go, as a function of the engine invocation's outcome:
`cmdErr` is the `cmd.Run()` error (if any), `stdout`/`stderr` the captured
streams. On success the trimmed stdout is validated against
`^([a-zA-Z0-9]+)$` before the (dead) empty-output check. -/
def run (cmdErr : Option String) (stdout stderr : String) : RunResult :=
  match cmdErr with
  | some e =>
    .cmdFailed ("Error running docker\nStdOut: " ++ stdout ++ "\nStdErr: " ++ stderr ++
      "\nError: " ++ e ++ "\n\n")
  | none =>
    let containerID := trimSpace stdout
    if !validIDMatch containerID then
      .invalidOutput ("Error running docker: " ++ containerID)
    else if containerID = "" then
      .emptyOutput
    else
      .ok containerID

/-- `KillContainer` from docker.go: `docker kill` unless the id is empty. -/
def KillContainer (eng : Engine) (container : String) : Option String × List EngineCmd :=
  if container ≠ "" then (eng.killRes container, [.kill container])
  else (none, [])

/-- `ContainerID` is an opaque identifier string. -/
abbrev ContainerID := String

/-- `ContainerID.Kill`: delegates to `KillContainer`. -/
def ContainerID.Kill (eng : Engine) (c : ContainerID) : Option String × List EngineCmd :=
  KillContainer eng c

/-- `ContainerID.Remove`: skipped (nil, no command) when the Debug flag is
set or when the handle is the literal `"nil"`; otherwise `docker rm -v`. -/
def ContainerID.Remove (eng : Engine) (debug : Bool) (c : ContainerID) :
    Option String × List EngineCmd :=
  if debug ∨ c = "nil" then (none, [])
  else (eng.rmRes c, [.rm c])

/-- `ContainerID.KillRemove`: `Kill`, then `Remove` only when `Kill`
returned no error. -/
def ContainerID.KillRemove (eng : Engine) (debug : Bool) (c : ContainerID) :
    Option String × List EngineCmd :=
  match ContainerID.Kill eng c with
  | (some e, tr) => (some e, tr)
  | (none, tr) =>
    let rm := ContainerID.Remove eng debug c
    (rm.1, tr ++ rm.2)

/-- `setupContainer` from docker.go: preflight via `runLongTest`, start the
container, then look up/probe its address; on probe failure tear the
container down with `KillRemove` (its error is discarded) and propagate the
probe error. `start` and `lookupRes` stand for the results of the injected
start function and of `c.lookup(port, timeout)`. -/
def setupContainer (env : Env) (eng : Engine) (debug : Bool) (image : String)
    (start : Except String String) (lookupRes : Except String String) :
    (ContainerID × String × Option String) × List EngineCmd :=
  match (runLongTest env image).err with
  | some e => (("", "", some e), [])
  | none =>
    match start with
    | .error e => (("", "", some e), [])
    | .ok containerID =>
      let c : ContainerID := containerID
      match lookupRes with
      | .error e =>
        let kr := ContainerID.KillRemove eng debug c
        (("", "", some e), kr.2)
      | .ok ip => ((c, ip, none), [])

/-- `randInt` from docker.go: `min + rand.Intn(max-min)`; `r` models the
random source (`rand.Intn n` yields `r % n`, covering exactly `[0, n)`). -/
def randInt (lo hi : Int) (r : Nat) : Int :=
  lo + ((r % (hi - lo).toNat : Nat) : Int)

/-- The external-port selection step of `SetupContainerWithEnv`:
`port = randInt(1024, 49150)`. -/
def setupPort (r : Nat) : Int := randInt 1024 49150 r

/-- The retry loop of `sqlExecRetry`, indexed by the number of attempts still
allowed (`fuel = maxTry - try`). `exec k` is the outcome of the `k`-th call
to `db.Exec(stmt)` (0-based); `interval` is the current sleep interval in
milliseconds. Returns the final outcome, the number of attempts made, and
the list of sleep intervals performed (in order). -/
def retryLoop (exec : Nat → Except String α) (interval tryIdx : Nat) :
    Nat → Except String α × Nat × List Nat
  | 0 => (.error "", 0, [])
  | 1 =>
    match exec tryIdx with
    | .ok a => (.ok a, 1, [])
    | .error e => (.error e, 1, [])
  | n + 2 =>
    match exec tryIdx with
    | .ok a => (.ok a, 1, [])
    | .error _ =>
      let rest := retryLoop exec (2 * interval) (tryIdx + 1) (n + 1)
      (rest.1, rest.2.1 + 1, interval :: rest.2.2)

/-- `sqlExecRetry` from docker.go: fail immediately when `maxTry <= 0`;
otherwise call `db.Exec(stmt)` up to `maxTry` times, sleeping in between
with intervals starting at 100ms and doubling; on exhaustion wrap the last
error as `failed <try> times: <err>`. -/
def sqlExecRetry (exec : Nat → Except String α) (maxTry : Int) :
    Except String α × Nat × List Nat :=
  if maxTry ≤ 0 then (.error "did not try at all", 0, [])
  else
    match retryLoop exec 100 0 maxTry.toNat with
    | (.ok a, k, s) => (.ok a, k, s)
    | (.error e, k, s) => (.error ("failed " ++ toString k ++ " times: " ++ e), k, s)

/-- The polling loop of `AwaitReachable`: while the current time `t` is
before the deadline `done`, dial (the oracle `dial t` returns the connection
obtained at time `t`, or `none` on failure); a successful dial closes the
connection and stops; a failed one sleeps 100ms. Returns whether a dial
succeeded, the times of all dial attempts, and the connections closed. -/
def awaitLoop (dial : Int → Option Nat) (done t : Int) : Bool × List Int × List Nat :=
  if _h : t < done then
    match dial t with
    | some c => (true, [t], [c])
    | none =>
      let rest := awaitLoop dial done (t + 100)
      (rest.1, t :: rest.2.1, rest.2.2)
  else (false, [], [])
termination_by (done - t).toNat
decreasing_by omega

/-- `AwaitReachable` from the repository: poll `addr` until reachable or
until `maxWait` (milliseconds) has elapsed past `now`; on timeout return the
`unreachable` error. -/
def AwaitReachable (dial : Int → Option Nat) (now maxWait : Int) (addr : String) :
    Option String × List Int × List Nat :=
  let r := awaitLoop dial (now + maxWait) now
  (if r.1 then none else some (addr ++ " unreachable for " ++ toString maxWait),
   r.2.1, r.2.2)

/-! Concrete oracle instances used to exercise the theorems on closed inputs. -/

/-- An engine whose kill always succeeds and whose remove always fails. -/
def engRmFails : Engine :=
  { killRes := fun _ => none, rmRes := fun _ => some "rm failed" }

/-- An engine whose commands all succeed. -/
def engAllOk : Engine :=
  { killRes := fun _ => none, rmRes := fun _ => none }

/-- An environment in which `docker-machine` and `docker` resolve, the
machine starts, and the image listing contains `img1`. -/
def envReady : Env :=
  { haveDockerMachine := true, haveDocker := true, startDockerMachineOk := true
    imagesRes := .ok "img1", pullRes := fun _ => ("", none) }

/-- An environment in which neither executable resolves. -/
def envBare : Env :=
  { haveDockerMachine := false, haveDocker := false, startDockerMachineOk := true
    imagesRes := .ok "", pullRes := fun _ => ("", none) }

/-- An environment in which `docker-machine` resolves but fails to start. -/
def envMachineStuck : Env :=
  { haveDockerMachine := true, haveDocker := false, startDockerMachineOk := false
    imagesRes := .ok "img1", pullRes := fun _ => ("", none) }

/-- A statement execution that fails on the first two attempts and then
succeeds with result `7`. -/
def execThirdTime : Nat → Except String Nat :=
  fun n => if n < 2 then .error "not ready" else .ok 7

/-- A statement execution that always fails. -/
def execBoom : Nat → Except String Nat := fun _ => .error "boom"

/-! Helper lemmas. -/

/-- A string contains each of its suffixes. -/
theorem hasSub_append (pre s : String) : hasSub (pre ++ s) s = true := by
  rw [hasSub, decide_eq_true_eq]
  exact ⟨pre.toList, [], by simp [String.toList, String.data_append]⟩

/-- The empty string never matches `^([a-zA-Z0-9]+)$`. -/
theorem validIDMatch_empty : validIDMatch "" = false := by decide

/-- Unfolding step for `retryLoop` at fuel 1 with a successful attempt. -/
theorem retryLoop_one_ok {α : Type} (exec : Nat → Except String α)
    (interval tryIdx : Nat) (a : α) (hx : exec tryIdx = .ok a) :
    retryLoop exec interval tryIdx 1 = (.ok a, 1, []) := by
  simp only [retryLoop, hx]

/-- Unfolding step for `retryLoop` at fuel 1 with a failed attempt. -/
theorem retryLoop_one_err {α : Type} (exec : Nat → Except String α)
    (interval tryIdx : Nat) (e : String) (hx : exec tryIdx = .error e) :
    retryLoop exec interval tryIdx 1 = (.error e, 1, []) := by
  simp only [retryLoop, hx]

/-- Unfolding step for `retryLoop` at fuel ≥ 2 with a failed attempt:
record the sleep, double the interval, recurse. -/
theorem retryLoop_step_err {α : Type} (exec : Nat → Except String α)
    (interval tryIdx n : Nat) (e : String) (hx : exec tryIdx = .error e) :
    retryLoop exec interval tryIdx (n + 2) =
      ((retryLoop exec (2 * interval) (tryIdx + 1) (n + 1)).1,
       (retryLoop exec (2 * interval) (tryIdx + 1) (n + 1)).2.1 + 1,
       interval :: (retryLoop exec (2 * interval) (tryIdx + 1) (n + 1)).2.2) := by
  simp only [retryLoop, hx]

/-- `retryLoop` makes at most `fuel` attempts, and its sleep intervals are
exactly `interval, 2*interval, 4*interval, ...`. -/
theorem retryLoop_sleeps {α : Type} (exec : Nat → Except String α) :
    ∀ (fuel interval tryIdx : Nat),
      (retryLoop exec interval tryIdx fuel).2.1 ≤ fuel ∧
      ∃ k, (retryLoop exec interval tryIdx fuel).2.2 =
        (List.range k).map (fun i => interval * 2 ^ i) := by
  intro fuel
  induction fuel using Nat.strong_induction_on with
  | _ fuel ih =>
    match fuel with
    | 0 => intro interval tryIdx; exact ⟨le_rfl, 0, rfl⟩
    | 1 =>
      intro interval tryIdx
      cases hx : exec tryIdx with
      | ok a => rw [retryLoop_one_ok exec interval tryIdx a hx]; exact ⟨le_rfl, 0, rfl⟩
      | error e => rw [retryLoop_one_err exec interval tryIdx e hx]; exact ⟨le_rfl, 0, rfl⟩
    | n + 2 =>
      intro interval tryIdx
      cases hx : exec tryIdx with
      | ok a =>
        have : retryLoop exec interval tryIdx (n + 2) = (.ok a, 1, []) := by
          simp only [retryLoop, hx]
        rw [this]
        refine ⟨?_, 0, rfl⟩
        show 1 ≤ n + 2
        omega
      | error e =>
        rw [retryLoop_step_err exec interval tryIdx n e hx]
        obtain ⟨hle, k, hk⟩ := ih (n + 1) (by omega) (2 * interval) (tryIdx + 1)
        refine ⟨by simpa using Nat.add_le_add_right hle 1, k + 1, ?_⟩
        show interval :: (retryLoop exec (2 * interval) (tryIdx + 1) (n + 1)).2.2 = _
        rw [hk, List.range_succ_eq_map, List.map_cons, List.map_map]
        have hf : ((fun i => interval * 2 ^ i) ∘ Nat.succ) =
            (fun i => 2 * interval * 2 ^ i) := by
          funext i
          simp only [Function.comp_apply, pow_succ]
          ring
        rw [hf]
        simp

/-- When every one of the first `fuel` attempts fails, `retryLoop` returns
the error of the last attempt and makes exactly `fuel` attempts. -/
theorem retryLoop_all_fail {α : Type} (exec : Nat → Except String α) :
    ∀ (fuel : Nat), 0 < fuel → ∀ (interval tryIdx : Nat),
      (∀ k, k < fuel → ∃ e, exec (tryIdx + k) = .error e) →
      ∃ e, exec (tryIdx + (fuel - 1)) = .error e ∧
        (retryLoop exec interval tryIdx fuel).1 = .error e ∧
        (retryLoop exec interval tryIdx fuel).2.1 = fuel := by
  intro fuel
  induction fuel using Nat.strong_induction_on with
  | _ fuel ih =>
    match fuel with
    | 0 => intro h; exact absurd h (lt_irrefl 0)
    | 1 =>
      intro _ interval tryIdx hall
      obtain ⟨e, he⟩ := hall 0 (by omega)
      have he' : exec tryIdx = .error e := by simpa using he
      rw [retryLoop_one_err exec interval tryIdx e he']
      exact ⟨e, by simpa using he, rfl, rfl⟩
    | n + 2 =>
      intro _ interval tryIdx hall
      obtain ⟨e0, he0⟩ := hall 0 (by omega)
      have he0' : exec tryIdx = .error e0 := by simpa using he0
      obtain ⟨e, he, hr, hn⟩ := ih (n + 1) (by omega) (by omega) (2 * interval) (tryIdx + 1)
        (fun k hk => by
          obtain ⟨e2, he2⟩ := hall (k + 1) (by omega)
          refine ⟨e2, ?_⟩
          have harg : tryIdx + 1 + k = tryIdx + (k + 1) := by omega
          rw [harg]
          exact he2)
      rw [retryLoop_step_err exec interval tryIdx n e0 he0']
      refine ⟨e, ?_, hr, by rw [hn]⟩
      have harg : tryIdx + (n + 2 - 1) = tryIdx + 1 + (n + 1 - 1) := by omega
      rw [harg]
      exact he

/-! Claim theorems. -/

/-- C6: the external port chosen by `SetupContainerWithEnv` via
`randInt(1024, 49150)` lies in `[1024, 49150)` for every value of the
random source. -/
theorem c6_port_in_range (r : Nat) : 1024 ≤ setupPort r ∧ setupPort r < 49150 := by
  unfold setupPort randInt
  have h : r % (49150 - 1024 : Int).toNat < 48126 := Nat.mod_lt r (by norm_num)
  omega

/-- C9: the dedicated empty-output error branch of `run` is unreachable:
no combination of engine outcome and captured streams ever produces the
`emptyOutput` result, because an empty trimmed stdout already fails the
`^([a-zA-Z0-9]+)$` check. -/
theorem c9_empty_output_dead (cmdErr : Option String) (stdout stderr : String) :
    (run cmdErr stdout stderr).isEmptyOutput = false := by
  cases cmdErr with
  | some e => rfl
  | none =>
    show (run none stdout stderr).isEmptyOutput = false
    rw [run]
    by_cases h : validIDMatch (trimSpace stdout) = true
    · have hne : ¬ trimSpace stdout = "" := by
        intro he
        rw [he] at h
        exact absurd h (by decide)
      simp only [h, Bool.not_true, if_false, hne, if_true, Bool.false_eq_true,
        if_neg hne]
      rfl
    · simp only [Bool.not_eq_true] at h
      simp only [h, Bool.not_false, if_true]
      rfl

/-- C5 counterexample: with successful engine exit and raw stdout
`"oops!\n"` (non-conforming, trailing newline), `run` returns the
invalid-output error whose message contains only the trimmed text, not the
raw output: the raw output is not a substring of the error. -/
theorem c5_raw_output_cex :
    run none "oops!\n" "" = .invalidOutput "Error running docker: oops!" ∧
    hasSub "Error running docker: oops!" "oops!\n" = false := by
  constructor
  · decide
  · decide

/-- C5 (amended): when the engine command exits successfully, `run` returns
the trimmed stdout as the container ID iff that trimmed output is non-empty
and matches `^([a-zA-Z0-9]+)$`; any non-conforming output yields an error
that contains the whitespace-trimmed output. -/
theorem c5_run_validation (stdout stderr : String) :
    (run none stdout stderr = .ok (trimSpace stdout) ↔
      (¬ trimSpace stdout = "" ∧ validIDMatch (trimSpace stdout) = true)) ∧
    (validIDMatch (trimSpace stdout) = false →
      run none stdout stderr =
        .invalidOutput ("Error running docker: " ++ trimSpace stdout) ∧
      hasSub ("Error running docker: " ++ trimSpace stdout) (trimSpace stdout) = true) := by
  constructor
  · constructor
    · intro hok
      rw [run] at hok
      by_cases h : validIDMatch (trimSpace stdout) = true
      · refine ⟨?_, h⟩
        intro he
        rw [he] at h
        exact absurd h (by decide)
      · simp only [Bool.not_eq_true] at h
        simp only [h, Bool.not_false, if_true] at hok
        exact absurd hok (by simp)
    · rintro ⟨hne, h⟩
      rw [run]
      simp only [h, Bool.not_true, Bool.false_eq_true, if_false, if_neg hne]
  · intro h
    refine ⟨?_, hasSub_append _ _⟩
    rw [run]
    simp only [h, Bool.not_false, if_true]

/-- C5 witness: instantiation of the amended theorem at the non-conforming
output `"ab cd"`. -/
theorem c5_run_validation_witness :
    run none "ab cd" "" =
      .invalidOutput ("Error running docker: " ++ trimSpace "ab cd") ∧
    hasSub ("Error running docker: " ++ trimSpace "ab cd") (trimSpace "ab cd") = true :=
  (c5_run_validation "ab cd" "").2 (by decide)

/-- C8: `ContainerID.Remove` returns nil without invoking the engine when
the Debug flag is set or when the handle is the literal `"nil"`; for every
other handle (including the empty string) with Debug unset it invokes the
engine's remove command. -/
theorem c8_remove_nil_literal (eng : Engine) (debug : Bool) (c : ContainerID) :
    ((debug = true ∨ c = "nil") → ContainerID.Remove eng debug c = (none, [])) ∧
    (debug = false → ¬ c = "nil" →
      ContainerID.Remove eng debug c = (eng.rmRes c, [EngineCmd.rm c])) := by
  constructor
  · intro h
    rw [ContainerID.Remove, if_pos]
    rcases h with h | h
    · exact Or.inl (by simp [h])
    · exact Or.inr h
  · intro hd hc
    rw [ContainerID.Remove, if_neg]
    rintro (h | h)
    · rw [hd] at h
      exact absurd h (by simp)
    · exact hc h

/-- C8 witness: instantiation at the literal `"nil"` handle and at the empty
handle, Debug unset. -/
theorem c8_remove_nil_literal_witness :
    ContainerID.Remove engAllOk false "nil" = (none, []) ∧
    ContainerID.Remove engAllOk false "" = (engAllOk.rmRes "", [EngineCmd.rm ""]) :=
  ⟨(c8_remove_nil_literal engAllOk false "nil").1 (Or.inr rfl),
   (c8_remove_nil_literal engAllOk false "").2 rfl (by decide)⟩

/-- C2 counterexample: with Debug unset, `KillRemove` on the empty handle is
not a no-op — it issues the engine's remove command on the empty ID and
returns its error. -/
theorem c2_killremove_empty_cex :
    ContainerID.KillRemove engRmFails false "" = (some "rm failed", [EngineCmd.rm ""]) ∧
    ¬ ((ContainerID.KillRemove engRmFails false "").2 = [] ∧
       (ContainerID.KillRemove engRmFails false "").1 = none) := by
  constructor
  · rfl
  · decide

/-- C2 (amended): `KillRemove` on the empty handle never issues a kill
command and the kill step returns no error; the remove step still runs — a
no-op returning nil when Debug is set, otherwise it issues the engine's
remove command on the empty ID and returns its result. -/
theorem c2_killremove_empty (eng : Engine) (debug : Bool) :
    ContainerID.KillRemove eng debug "" =
      (if debug then ((none : Option String), ([] : List EngineCmd))
       else (eng.rmRes "", [EngineCmd.rm ""])) ∧
    ∀ id, EngineCmd.kill id ∉ (ContainerID.KillRemove eng debug "").2 := by
  have hkill : ContainerID.Kill eng "" = (none, []) := by
    rw [ContainerID.Kill, KillContainer, if_neg]
    simp
  have hrm : ContainerID.Remove eng debug "" =
      (if debug then ((none : Option String), ([] : List EngineCmd))
       else (eng.rmRes "", [EngineCmd.rm ""])) := by
    cases debug with
    | true => rw [ContainerID.Remove, if_pos (Or.inl rfl)]; rfl
    | false =>
      rw [ContainerID.Remove, if_neg, if_neg]
      · simp
      · rintro (h | h)
        · exact absurd h (by simp)
        · exact absurd h (by decide)
  have hmain : ContainerID.KillRemove eng debug "" =
      (if debug then ((none : Option String), ([] : List EngineCmd))
       else (eng.rmRes "", [EngineCmd.rm ""])) := by
    rw [ContainerID.KillRemove, hkill, hrm]
    cases debug <;> simp
  refine ⟨hmain, ?_⟩
  intro id
  rw [hmain]
  cases debug <;> simp

/-- C2 witness: instantiation of the amended theorem at an all-succeeding
engine with Debug unset. -/
theorem c2_killremove_empty_witness :
    ContainerID.KillRemove engAllOk false "" = (engAllOk.rmRes "", [EngineCmd.rm ""]) ∧
    EngineCmd.kill "" ∉ (ContainerID.KillRemove engAllOk false "").2 :=
  ⟨(c2_killremove_empty engAllOk false).1, (c2_killremove_empty engAllOk false).2 ""⟩

/-- C1: when preflight succeeds, the start function returns a container ID,
and the address lookup / reachability probe fails, `setupContainer` tears
the container down before propagating the error: the first teardown command
is a kill on that ID, a remove on it is issued only when the kill returned
no error, and the call returns the empty handle with the probe error. -/
theorem c1_probe_failure_rollback (env : Env) (eng : Engine) (debug : Bool)
    (image id e : String)
    (h1 : (runLongTest env image).err = none) (h2 : ¬ id = "") :
    (setupContainer env eng debug image (.ok id) (.error e)).1 = ("", "", some e) ∧
    (setupContainer env eng debug image (.ok id) (.error e)).2.head? =
      some (EngineCmd.kill id) ∧
    (EngineCmd.rm id ∈ (setupContainer env eng debug image (.ok id) (.error e)).2 →
      eng.killRes id = none) := by
  have hkill : ContainerID.Kill eng id = (eng.killRes id, [EngineCmd.kill id]) := by
    rw [ContainerID.Kill, KillContainer, if_pos h2]
  have hsetup : setupContainer env eng debug image (.ok id) (.error e) =
      (("", "", some e), (ContainerID.KillRemove eng debug id).2) := by
    rw [setupContainer, h1]
  rw [hsetup]
  refine ⟨rfl, ?_, ?_⟩
  · rw [ContainerID.KillRemove, hkill]
    cases hk : eng.killRes id with
    | some e2 => rfl
    | none => rfl
  · intro hmem
    rw [ContainerID.KillRemove, hkill] at hmem
    cases hk : eng.killRes id with
    | some e2 =>
      rw [hk] at hmem
      simp at hmem
    | none => rfl

/-- C1 witness: instantiation at a ready environment, an all-succeeding
engine, container ID `"abc"` and probe error `"probe"`. -/
theorem c1_probe_failure_rollback_witness :
    (setupContainer envReady engAllOk false "img1" (.ok "abc") (.error "probe")).1 =
      ("", "", some "probe") ∧
    (setupContainer envReady engAllOk false "img1" (.ok "abc") (.error "probe")).2.head? =
      some (EngineCmd.kill "abc") ∧
    (EngineCmd.rm "abc" ∈
        (setupContainer envReady engAllOk false "img1" (.ok "abc") (.error "probe")).2 →
      engAllOk.killRes "abc" = none) :=
  c1_probe_failure_rollback envReady engAllOk false "img1" "abc" "probe"
    (by decide) (by decide)

/-- C7: `runLongTest` fails without reaching the image-ensure step iff
neither `docker-machine` nor `docker` resolves on the search path; when
`docker-machine` is present but fails to start, the failure is only a
logged warning and control continues to the image-ensure step. -/
theorem c7_preflight (env : Env) (image : String) :
    (((runLongTest env image).reachedImageEnsure = false ∧
        (runLongTest env image).err.isSome = true) ↔
      (env.haveDockerMachine = false ∧ env.haveDocker = false)) ∧
    (env.haveDockerMachine = true → env.startDockerMachineOk = false →
      (runLongTest env image).warnedStartFailure = true ∧
      (runLongTest env image).reachedImageEnsure = true ∧
      (runLongTest env image).err = imageEnsure env image) := by
  rw [runLongTest]
  cases hdm : env.haveDockerMachine <;> cases hd : env.haveDocker <;> simp

/-- C7 witness: with neither executable available `runLongTest` fails before
the image-ensure step; with a present but stuck `docker-machine` it only
warns and proceeds. -/
theorem c7_preflight_witness :
    ((runLongTest envBare "img1").reachedImageEnsure = false ∧
      (runLongTest envBare "img1").err.isSome = true) ∧
    (runLongTest envMachineStuck "img1").warnedStartFailure = true ∧
    (runLongTest envMachineStuck "img1").reachedImageEnsure = true :=
  ⟨(c7_preflight envBare "img1").1.mpr ⟨rfl, rfl⟩,
   ((c7_preflight envMachineStuck "img1").2 rfl rfl).1,
   ((c7_preflight envMachineStuck "img1").2 rfl rfl).2.1⟩

/-- C3: a statement that fails on the first two attempts and succeeds on the
third makes `sqlExecRetry(db, stmt, 3)` return the successful result with no
error after exactly 3 attempts, sleeping 100ms then 200ms (cumulative 300ms);
in general sleeps start at 100ms and double after each failed attempt, and at
most `maxTry` attempts are made. -/
theorem c3_third_attempt_succeeds {α : Type} (exec : Nat → Except String α) (a : α)
    (e0 e1 : String) (h0 : exec 0 = .error e0) (h1 : exec 1 = .error e1)
    (h2 : exec 2 = .ok a) :
    sqlExecRetry exec 3 = (.ok a, 3, [100, 200]) ∧
    (sqlExecRetry exec 3).2.2.sum = 100 + 200 ∧
    ∀ (g : Nat → Except String α) (maxTry : Int),
      (sqlExecRetry g maxTry).2.1 ≤ maxTry.toNat ∧
      ∃ k, (sqlExecRetry g maxTry).2.2 = (List.range k).map (fun i => 100 * 2 ^ i) := by
  have hloop : retryLoop exec 100 0 3 = (.ok a, 3, [100, 200]) := by
    rw [retryLoop_step_err exec 100 0 1 e0 h0,
      retryLoop_step_err exec 200 1 0 e1 h1,
      retryLoop_one_ok exec 400 2 a h2]
  have hmain : sqlExecRetry exec 3 = (.ok a, 3, [100, 200]) := by
    rw [sqlExecRetry, if_neg (by norm_num), show ((3 : Int).toNat) = 3 from rfl, hloop]
  refine ⟨hmain, by rw [hmain]; simp, ?_⟩
  intro g maxTry
  by_cases h : maxTry ≤ 0
  · rw [sqlExecRetry, if_pos h]
    exact ⟨Nat.zero_le _, 0, rfl⟩
  · rw [sqlExecRetry, if_neg h]
    obtain ⟨hle, k, hk⟩ := retryLoop_sleeps g maxTry.toNat 100 0
    rcases hL : retryLoop g 100 0 maxTry.toNat with ⟨r1, r2, r3⟩
    rw [hL] at hle hk
    cases r1 with
    | ok a2 => exact ⟨hle, k, hk⟩
    | error e2 => exact ⟨hle, k, hk⟩

/-- C3 witness: instantiation at a statement that fails twice and then
returns 7. -/
theorem c3_third_attempt_succeeds_witness :
    sqlExecRetry execThirdTime 3 = (.ok 7, 3, [100, 200]) :=
  (c3_third_attempt_succeeds execThirdTime 7 "not ready" "not ready" rfl rfl rfl).1

/-- C4: `sqlExecRetry` with `maxTry <= 0` returns a non-nil error having made
zero attempts and zero sleeps; when all `maxTry` attempts fail it reports the
number of attempts made together with the last underlying error. -/
theorem c4_zero_attempts_and_exhaustion {α : Type} (exec : Nat → Except String α)
    (maxTry : Int) :
    (maxTry ≤ 0 →
      sqlExecRetry exec maxTry = (.error "did not try at all", 0, [])) ∧
    (0 < maxTry → (∀ k, k < maxTry.toNat → ∃ e, exec k = .error e) →
      ∃ e, exec (maxTry.toNat - 1) = .error e ∧
        (sqlExecRetry exec maxTry).1 =
          .error ("failed " ++ toString maxTry.toNat ++ " times: " ++ e) ∧
        (sqlExecRetry exec maxTry).2.1 = maxTry.toNat) := by
  constructor
  · intro h
    rw [sqlExecRetry, if_pos h]
  · intro hpos hall
    obtain ⟨e, he, hr, hn⟩ := retryLoop_all_fail exec maxTry.toNat (by omega) 100 0
      (fun k hk => by simpa using hall k hk)
    refine ⟨e, by simpa using he, ?_⟩
    rw [sqlExecRetry, if_neg (by omega)]
    rcases hL : retryLoop exec 100 0 maxTry.toNat with ⟨r1, r2, r3⟩
    rw [hL] at hr hn
    simp only at hr hn
    subst hr
    subst hn
    exact ⟨rfl, rfl⟩

/-- C4 witness: instantiation at an always-failing statement with retry
budgets -1 and 2. -/
theorem c4_zero_attempts_and_exhaustion_witness :
    sqlExecRetry execBoom (-1) = (.error "did not try at all", 0, []) ∧
    (sqlExecRetry execBoom 2).1 = .error "failed 2 times: boom" ∧
    (sqlExecRetry execBoom 2).2.1 = 2 := by
  refine ⟨(c4_zero_attempts_and_exhaustion execBoom (-1)).1 (by norm_num), ?_⟩
  obtain ⟨e, he, hr, hn⟩ := (c4_zero_attempts_and_exhaustion execBoom 2).2 (by norm_num)
    (fun k _ => ⟨"boom", rfl⟩)
  have heq : e = "boom" := by
    have h2 : Except.error (α := Nat) "boom" = Except.error e := he
    exact (Except.error.inj h2).symm
  subst heq
  exact ⟨hr, hn⟩

/-- Behaviour of the polling loop: success holds iff some recorded dial
attempt succeeded; on success exactly the successful connection is closed;
on failure nothing is closed. -/
theorem awaitLoop_spec (dial : Int → Option Nat) (done : Int) :
    ∀ (m : Nat) (t : Int), (done - t).toNat ≤ m →
      ((awaitLoop dial done t).1 = true ↔
        ∃ s ∈ (awaitLoop dial done t).2.1, (dial s).isSome = true) ∧
      ((awaitLoop dial done t).1 = true →
        ∃ s c, dial s = some c ∧ s ∈ (awaitLoop dial done t).2.1 ∧
          (awaitLoop dial done t).2.2 = [c]) ∧
      ((awaitLoop dial done t).1 = false → (awaitLoop dial done t).2.2 = []) := by
  intro m
  induction m with
  | zero =>
    intro t ht
    have h : ¬ t < done := by omega
    rw [awaitLoop, dif_neg h]
    simp
  | succ m ih =>
    intro t ht
    by_cases h : t < done
    · rw [awaitLoop, dif_pos h]
      cases hd : dial t with
      | some c =>
        refine ⟨⟨fun _ => ⟨t, by simp, by rw [hd]; rfl⟩, fun _ => rfl⟩,
          fun _ => ⟨t, c, hd, by simp, rfl⟩, fun hfalse => absurd hfalse (by simp)⟩
      | none =>
        obtain ⟨ih1, ih2, ih3⟩ := ih (t + 100) (by omega)
        refine ⟨?_, ?_, ?_⟩
        · constructor
          · intro h1
            obtain ⟨s, hs, hsome⟩ := ih1.mp h1
            exact ⟨s, List.mem_cons_of_mem _ hs, hsome⟩
          · rintro ⟨s, hs, hsome⟩
            rcases List.mem_cons.mp hs with rfl | hs2
            · rw [hd] at hsome
              exact absurd hsome (by simp)
            · exact ih1.mpr ⟨s, hs2, hsome⟩
        · intro h1
          obtain ⟨s, c, hsc, hmem, hcl⟩ := ih2 h1
          exact ⟨s, c, hsc, List.mem_cons_of_mem _ hmem, hcl⟩
        · intro h1
          exact ih3 h1
    · rw [awaitLoop, dif_neg h]
      simp

/-- C10: `AwaitReachable` with `maxWait <= 0` performs zero dial attempts
and immediately returns the unreachable error; in general it returns nil iff
some recorded dial attempt succeeded before the deadline, and on success the
successful connection is the one (and only) connection closed. -/
theorem c10_await_reachable (dial : Int → Option Nat) (now maxWait : Int)
    (addr : String) :
    (maxWait ≤ 0 → AwaitReachable dial now maxWait addr =
      (some (addr ++ " unreachable for " ++ toString maxWait), [], [])) ∧
    ((AwaitReachable dial now maxWait addr).1 = none ↔
      ∃ t ∈ (AwaitReachable dial now maxWait addr).2.1, (dial t).isSome = true) ∧
    ((AwaitReachable dial now maxWait addr).1 = none →
      ∃ t c, dial t = some c ∧ t ∈ (AwaitReachable dial now maxWait addr).2.1 ∧
        (AwaitReachable dial now maxWait addr).2.2 = [c]) := by
  obtain ⟨h1, h2, h3⟩ := awaitLoop_spec dial (now + maxWait)
    (now + maxWait - now).toNat now le_rfl
  have hA : AwaitReachable dial now maxWait addr =
      (if (awaitLoop dial (now + maxWait) now).1 then none
       else some (addr ++ " unreachable for " ++ toString maxWait),
       (awaitLoop dial (now + maxWait) now).2.1,
       (awaitLoop dial (now + maxWait) now).2.2) := rfl
  have hnone : (AwaitReachable dial now maxWait addr).1 = none ↔
      (awaitLoop dial (now + maxWait) now).1 = true := by
    rw [hA]
    cases hb : (awaitLoop dial (now + maxWait) now).1 <;> simp
  refine ⟨?_, ?_, ?_⟩
  · intro h
    have hnl : ¬ now < now + maxWait := by omega
    rw [hA, awaitLoop, dif_neg hnl]
    rfl
  · rw [hnone, hA]
    exact h1
  · intro h
    obtain ⟨s, c, hsc, hmem, hcl⟩ := h2 (hnone.mp h)
    rw [hA]
    exact ⟨s, c, hsc, hmem, hcl⟩

/-- C10 witness: a never-successful dialer with a negative deadline makes no
attempts and reports unreachability. -/
theorem c10_await_reachable_witness :
    AwaitReachable (fun _ => none) 0 (-5) "10.0.0.1:80" =
      (some ("10.0.0.1:80 unreachable for " ++ toString (-5 : Int)), [], []) :=
  (c10_await_reachable (fun _ => none) 0 (-5) "10.0.0.1:80").1 (by norm_num)

end Dockertest
